import Mathlib

/-!
Verification of the checkly Go client library (src/checkly.go, src/types.go).

The development shallowly embeds the library:
* the JSON wire format: a `Json` value type, a parser modelling what
  `json.NewDecoder(...).Decode` accepts, Go's `encoding/json` struct
  marshalling (field order, `omitempty`, HTML-escaping) for the `Check`
  entity and its nested types, and Go's unmarshalling into those structs
  (case-insensitive key matching, `null` as no-op, type-checked fields);
* `time.Time` as `GoTime` with its RFC3339 JSON (un)marshalling and the
  year-range restriction of `Time.MarshalJSON`;
* the HTTP layer: `Client`, the request value built by `MakeAPICall`, and a
  `World` record holding the outcomes of the external fallible calls
  (`http.NewRequest`, `httputil.DumpRequestOut`, `httputil.DumpResponse`,
  the ignored `fmt.Fprintln` results).  The `HTTPClient.Do` transport is the
  `HTTPClient` function field of `Client`; reading the response body is the
  `bodyData` field of the response it returns.  Each operation returns,
  besides its Go results, the (unchanged) client, the list of requests
  passed to the transport, and the lines written to the debug sink, making
  the side effects of the Go code explicit.
-/

namespace Checkly

/-! ## JSON values -/

/-- A JSON value.  Numbers keep their source literal, as Go's `encoding/json`
does before converting to a concrete Go type. -/
inductive Json where
  | null
  | bool (b : Bool)
  | num (lit : String)
  | str (s : String)
  | arr (xs : List Json)
  | obj (fields : List (String × Json))

/-! ## JSON parsing (what `json.NewDecoder(r).Decode` accepts)

`Decode` reads the first complete JSON value from the reader; trailing data
is not consumed and is not an error.  The parser is fuel-indexed; the fuel
budget chosen by `parseTop` is large enough for every input (each two units
of fuel consume at least one character), so the `fuel` error branch is
unreachable from `parseTop`. -/

def isWs (c : Char) : Bool := c == ' ' || c == '\t' || c == '\n' || c == '\r'

def skipWs : List Char → List Char
  | [] => []
  | c :: cs => if isWs c then skipWs cs else c :: cs

def hexVal (c : Char) : Option Nat :=
  if c.isDigit then some (c.toNat - 48)
  else if 'a' ≤ c && c ≤ 'f' then some (c.toNat - 87)
  else if 'A' ≤ c && c ≤ 'F' then some (c.toNat - 55)
  else none

/-- Parse the remainder of a JSON string literal (the opening quote is
already consumed), decoding escape sequences the way Go's `encoding/json`
does: surrogate pairs are combined, lone surrogates become U+FFFD, and raw
control characters are rejected. -/
def parseStr : Nat → List Char → List Char → Except String (String × List Char)
  | 0, _, _ => .error "fuel exhausted"
  | fuel + 1, cs, acc =>
    match cs with
    | [] => .error "unexpected end of JSON string"
    | '"' :: rest => .ok (String.mk acc.reverse, rest)
    | '\\' :: esc =>
      match esc with
      | '"' :: r => parseStr fuel r ('"' :: acc)
      | '\\' :: r => parseStr fuel r ('\\' :: acc)
      | '/' :: r => parseStr fuel r ('/' :: acc)
      | 'b' :: r => parseStr fuel r ('\x08' :: acc)
      | 'f' :: r => parseStr fuel r ('\x0c' :: acc)
      | 'n' :: r => parseStr fuel r ('\n' :: acc)
      | 'r' :: r => parseStr fuel r ('\r' :: acc)
      | 't' :: r => parseStr fuel r ('\t' :: acc)
      | 'u' :: h1 :: h2 :: h3 :: h4 :: r =>
        match hexVal h1, hexVal h2, hexVal h3, hexVal h4 with
        | some a, some b, some c, some d =>
          let n := ((a * 16 + b) * 16 + c) * 16 + d
          if 0xD800 ≤ n && n ≤ 0xDBFF then
            -- high surrogate: combine with a following low surrogate
            match r with
            | '\\' :: 'u' :: g1 :: g2 :: g3 :: g4 :: r2 =>
              match hexVal g1, hexVal g2, hexVal g3, hexVal g4 with
              | some a2, some b2, some c2, some d2 =>
                let n2 := ((a2 * 16 + b2) * 16 + c2) * 16 + d2
                if 0xDC00 ≤ n2 && n2 ≤ 0xDFFF then
                  parseStr fuel r2
                    (Char.ofNat (0x10000 + (n - 0xD800) * 0x400 + (n2 - 0xDC00)) :: acc)
                else
                  -- unpaired: U+FFFD, reprocess the second escape on its own
                  parseStr fuel ('\\' :: 'u' :: g1 :: g2 :: g3 :: g4 :: r2) ('\uFFFD' :: acc)
              | _, _, _, _ => .error "invalid unicode escape"
            | _ => parseStr fuel r ('\uFFFD' :: acc)
          else if 0xDC00 ≤ n && n ≤ 0xDFFF then
            -- lone low surrogate
            parseStr fuel r ('\uFFFD' :: acc)
          else
            parseStr fuel r (Char.ofNat n :: acc)
        | _, _, _, _ => .error "invalid unicode escape"
      | _ => .error "invalid escape sequence"
    | c :: rest =>
      if c.toNat < 0x20 then .error "control character in string literal"
      else parseStr fuel rest (c :: acc)

/-- Optional fraction part of a JSON number literal. -/
def parseNumFrac (cs : List Char) : Except String (List Char × List Char) :=
  match cs with
  | '.' :: r =>
    match r.span (·.isDigit) with
    | ([], _) => .error "invalid number: missing digits after decimal point"
    | (ds, r2) => .ok ('.' :: ds, r2)
  | _ => .ok ([], cs)

/-- Optional exponent part of a JSON number literal. -/
def parseNumExp (cs : List Char) : Except String (List Char × List Char) :=
  match cs with
  | 'e' :: r =>
    match r with
    | '+' :: r2 =>
      match r2.span (·.isDigit) with
      | ([], _) => .error "invalid number: missing exponent digits"
      | (ds, r3) => .ok ('e' :: '+' :: ds, r3)
    | '-' :: r2 =>
      match r2.span (·.isDigit) with
      | ([], _) => .error "invalid number: missing exponent digits"
      | (ds, r3) => .ok ('e' :: '-' :: ds, r3)
    | _ =>
      match r.span (·.isDigit) with
      | ([], _) => .error "invalid number: missing exponent digits"
      | (ds, r3) => .ok ('e' :: ds, r3)
  | 'E' :: r =>
    match r with
    | '+' :: r2 =>
      match r2.span (·.isDigit) with
      | ([], _) => .error "invalid number: missing exponent digits"
      | (ds, r3) => .ok ('E' :: '+' :: ds, r3)
    | '-' :: r2 =>
      match r2.span (·.isDigit) with
      | ([], _) => .error "invalid number: missing exponent digits"
      | (ds, r3) => .ok ('E' :: '-' :: ds, r3)
    | _ =>
      match r.span (·.isDigit) with
      | ([], _) => .error "invalid number: missing exponent digits"
      | (ds, r3) => .ok ('E' :: ds, r3)
  | _ => .ok ([], cs)

/-- Parse a JSON number literal, keeping its text.  JSON forbids leading
zeros and a bare sign, which this enforces like Go's scanner. -/
def parseNum (cs : List Char) : Except String (String × List Char) :=
  let signed : List Char × List Char :=
    match cs with
    | '-' :: r => (['-'], r)
    | _ => ([], cs)
  match signed.2 with
  | '0' :: r =>
    match parseNumFrac r with
    | .error e => .error e
    | .ok (fr, r2) =>
      match parseNumExp r2 with
      | .error e => .error e
      | .ok (ex, r3) => .ok (String.mk (signed.1 ++ ['0'] ++ fr ++ ex), r3)
  | c :: r =>
    if c.isDigit then
      let ds := r.span (·.isDigit)
      match parseNumFrac ds.2 with
      | .error e => .error e
      | .ok (fr, r2) =>
        match parseNumExp r2 with
        | .error e => .error e
        | .ok (ex, r3) => .ok (String.mk (signed.1 ++ (c :: ds.1) ++ fr ++ ex), r3)
    else .error "invalid character looking for beginning of value"
  | [] => .error "invalid character looking for beginning of value"

mutual

/-- Parse one JSON value (leading whitespace allowed), returning it and the
unconsumed remainder of the input. -/
def parseVal (fuel : Nat) (cs : List Char) : Except String (Json × List Char) :=
  match fuel with
  | 0 => .error "fuel exhausted"
  | fuel + 1 =>
    match skipWs cs with
    | [] => .error "EOF"
    | '\x7b' :: rest =>
      match skipWs rest with
      | '\x7d' :: rest2 => .ok (.obj [], rest2)
      | rest2 => parseMembers fuel rest2 []
    | '[' :: rest =>
      match skipWs rest with
      | ']' :: rest2 => .ok (.arr [], rest2)
      | rest2 => parseElems fuel rest2 []
    | '"' :: rest =>
      match parseStr (rest.length + 1) rest [] with
      | .error e => .error e
      | .ok (s, r) => .ok (.str s, r)
    | 't' :: 'r' :: 'u' :: 'e' :: rest => .ok (.bool true, rest)
    | 'f' :: 'a' :: 'l' :: 's' :: 'e' :: rest => .ok (.bool false, rest)
    | 'n' :: 'u' :: 'l' :: 'l' :: rest => .ok (.null, rest)
    | cs2 =>
      match parseNum cs2 with
      | .error e => .error e
      | .ok (lit, r) => .ok (.num lit, r)

/-- Parse the members of a non-empty JSON object (after the opening brace). -/
def parseMembers (fuel : Nat) (cs : List Char) (acc : List (String × Json)) :
    Except String (Json × List Char) :=
  match fuel with
  | 0 => .error "fuel exhausted"
  | fuel + 1 =>
    match skipWs cs with
    | '"' :: rest =>
      match parseStr (rest.length + 1) rest [] with
      | .error e => .error e
      | .ok (k, rest2) =>
        match skipWs rest2 with
        | ':' :: rest3 =>
          match parseVal fuel rest3 with
          | .error e => .error e
          | .ok (v, rest4) =>
            match skipWs rest4 with
            | ',' :: rest5 => parseMembers fuel rest5 (acc ++ [(k, v)])
            | '\x7d' :: rest5 => .ok (.obj (acc ++ [(k, v)]), rest5)
            | _ => .error "expected comma or end of object"
        | _ => .error "expected colon after object key"
    | _ => .error "expected object key"

/-- Parse the elements of a non-empty JSON array (after the opening bracket). -/
def parseElems (fuel : Nat) (cs : List Char) (acc : List Json) :
    Except String (Json × List Char) :=
  match fuel with
  | 0 => .error "fuel exhausted"
  | fuel + 1 =>
    match parseVal fuel cs with
    | .error e => .error e
    | .ok (v, rest) =>
      match skipWs rest with
      | ',' :: rest2 => parseElems fuel rest2 (acc ++ [v])
      | ']' :: rest2 => .ok (.arr (acc ++ [v]), rest2)
      | _ => .error "expected comma or end of array"

end

/-- The first JSON value of a string, as read by
`json.NewDecoder(strings.NewReader(s)).Decode`: leading whitespace is
skipped, trailing data after the first value is ignored, an empty (or
all-whitespace) input is an `EOF` error. -/
def parseTop (s : String) : Except String Json :=
  match parseVal (2 * s.length + 8) s.toList with
  | .ok (v, _) => .ok v
  | .error e => .error e

/-! ## Go `time.Time`

Only what the wire format exercises is embedded: the components that
RFC3339 text determines, `time.Time`'s JSON marshalling (RFC3339 with
nanoseconds, and `Time.MarshalJSON`'s year range check) and unmarshalling
(a JSON string in strict RFC3339 form, or `null` as a no-op). -/

structure GoTime where
  year : Int
  month : Nat
  day : Nat
  hour : Nat
  minute : Nat
  second : Nat
  /-- nanoseconds -/
  nsec : Nat
  /-- zone offset in seconds east of UTC -/
  offset : Int
deriving DecidableEq

/-- The zero `time.Time`: 0001-01-01T00:00:00Z. -/
def GoTime.zero : GoTime := ⟨1, 1, 1, 0, 0, 0, 0, 0⟩

def isLeapYear (y : Int) : Bool := y % 4 == 0 && (y % 100 != 0 || y % 400 == 0)

def daysInMonth (y : Int) (m : Nat) : Nat :=
  if m == 2 then (if isLeapYear y then 29 else 28)
  else if m == 4 || m == 6 || m == 9 || m == 11 then 30
  else 31

def digitVal (c : Char) : Option Nat :=
  if c.isDigit then some (c.toNat - 48) else none

def num2 (a b : Char) : Option Nat := do
  let x ← digitVal a
  let y ← digitVal b
  pure (x * 10 + y)

def num4 (a b c d : Char) : Option Nat := do
  let x ← num2 a b
  let y ← num2 c d
  pure (x * 100 + y)

/-- Nanoseconds from an RFC3339 fraction: the first nine digits, right-padded
with zeros (sub-nanosecond digits are truncated). -/
def nsecOfFrac (ds : List Char) : Option Nat :=
  (ds.take 9).foldl (fun acc c => do pure ((← acc) * 10 + (← digitVal c)))
    (some 0) |>.map (fun n => n * 10 ^ (9 - min ds.length 9))

/-- Parse the offset tail of an RFC3339 timestamp: `Z` or `±HH:MM`,
which must end the string. -/
def parseOffset (cs : List Char) : Option Int :=
  match cs with
  | ['Z'] => some 0
  | ['+', h1, h2, ':', m1, m2] => do
    let h ← num2 h1 h2
    let m ← num2 m1 m2
    if h ≤ 23 && m ≤ 59 then pure (Int.ofNat (h * 3600 + m * 60)) else none
  | ['-', h1, h2, ':', m1, m2] => do
    let h ← num2 h1 h2
    let m ← num2 m1 m2
    if h ≤ 23 && m ≤ 59 then pure (-(Int.ofNat (h * 3600 + m * 60))) else none
  | _ => none

/-- Parse a strict RFC3339 timestamp `YYYY-MM-DDTHH:MM:SS[.fff…](Z|±HH:MM)`
with the component validation `time.Parse` performs. -/
def parseRFC3339 (s : String) : Option GoTime :=
  match s.toList with
  | y1 :: y2 :: y3 :: y4 :: '-' :: m1 :: m2 :: '-' :: d1 :: d2 :: 'T'
      :: h1 :: h2 :: ':' :: mi1 :: mi2 :: ':' :: s1 :: s2 :: rest => do
    let y ← num4 y1 y2 y3 y4
    let mo ← num2 m1 m2
    let d ← num2 d1 d2
    let h ← num2 h1 h2
    let mi ← num2 mi1 mi2
    let se ← num2 s1 s2
    let fracTail : Nat × List Char ←
      match rest with
      | '.' :: r =>
        match r.span (·.isDigit) with
        | ([], _) => none
        | (ds, r2) => do pure ((← nsecOfFrac ds), r2)
      | _ => pure (0, rest)
    let off ← parseOffset fracTail.2
    if 1 ≤ mo && mo ≤ 12 && 1 ≤ d && d ≤ daysInMonth (Int.ofNat y) mo
        && h ≤ 23 && mi ≤ 59 && se ≤ 59 then
      pure ⟨Int.ofNat y, mo, d, h, mi, se, fracTail.1, off⟩
    else none
  | _ => none

/-- `n` rendered in decimal, left-padded with zeros to width `w`. -/
def padNat (n w : Nat) : String :=
  let s := toString n
  String.mk (List.replicate (w - s.length) '0') ++ s

/-- Fractional-second text of `time.RFC3339Nano`: empty when zero, otherwise
a dot and the nanoseconds with trailing zeros removed. -/
def fracText (nsec : Nat) : String :=
  if nsec == 0 then ""
  else "." ++ String.mk (((padNat nsec 9).toList.reverse.dropWhile (· == '0')).reverse)

/-- Zone text of `time.RFC3339Nano`: `Z` for UTC, `±HH:MM` otherwise. -/
def offsetText (off : Int) : String :=
  if off == 0 then "Z"
  else
    (if off < 0 then "-" else "+")
      ++ padNat (off.natAbs / 3600) 2 ++ ":" ++ padNat (off.natAbs % 3600 / 60) 2

/-- `time.RFC3339Nano` rendering of a time whose year is in `[0, 9999]`. -/
def GoTime.rfc3339Nano (t : GoTime) : String :=
  padNat t.year.toNat 4 ++ "-" ++ padNat t.month 2 ++ "-" ++ padNat t.day 2
    ++ "T" ++ padNat t.hour 2 ++ ":" ++ padNat t.minute 2 ++ ":" ++ padNat t.second 2
    ++ fracText t.nsec ++ offsetText t.offset

/-- `time.Time.MarshalJSON`: a quoted RFC3339Nano string, refused when the
year falls outside `[0, 9999]`. -/
def marshalTime (t : GoTime) : Except String String :=
  if t.year < 0 || t.year > 9999 then
    .error "Time.MarshalJSON: year outside of range [0,9999]"
  else
    .ok ("\"" ++ t.rfc3339Nano ++ "\"")

/-! ## The entity types (src/types.go)

Go slices distinguish nil from empty; a slice field is `Option (List _)`
with `none` for nil.  The Go field `Type` is `Type'` here (`Type` is not a
valid Lean field name); its JSON tag is unchanged. -/

structure KeyValue where
  Key : String
  Value : String
  Locked : Bool
deriving DecidableEq

structure EnvironmentVariable where
  Key : String
  Value : String
  Locked : Bool
deriving DecidableEq

structure Assertion where
  Edit : Bool
  Order : Int
  ArrayIndex : Int
  ArraySelector : Int
  Source : String
  Property : String
  Comparison : String
  Target : String
deriving DecidableEq

structure BasicAuth where
  Username : String
  Password : String
deriving DecidableEq

structure Request where
  Method : String
  URL : String
  FollowRedirects : Bool
  Body : String
  BodyType : String
  Headers : Option (List KeyValue)
  QueryParameters : Option (List KeyValue)
  Assertions : Option (List Assertion)
  BasicAuth : BasicAuth
deriving DecidableEq

structure RunBasedEscalation where
  FailedRunThreshold : Int
deriving DecidableEq

structure TimeBasedEscalation where
  MinutesFailingThreshold : Int
deriving DecidableEq

structure Reminders where
  Amount : Int
  Interval : Int
deriving DecidableEq

structure SSLCertificates where
  Enabled : Bool
  AlertThreshold : Int
deriving DecidableEq

structure AlertSettings where
  EscalationType : String
  RunBasedEscalation : RunBasedEscalation
  TimeBasedEscalation : TimeBasedEscalation
  Reminders : Reminders
  SSLCertificates : SSLCertificates
deriving DecidableEq

structure Subscription where
  ID : String
  CheckID : String
  AlertChannelID : Int
  Activated : Bool
deriving DecidableEq

structure Check where
  ID : String
  Name : String
  /-- Go field `Type`, JSON tag `checkType`. -/
  Type' : String
  Frequency : Int
  Activated : Bool
  Muted : Bool
  ShouldFail : Bool
  Locations : Option (List String)
  DegradedResponseTime : Int
  MaxResponseTime : Int
  Script : String
  CreatedAt : GoTime
  UpdatedAt : GoTime
  EnvironmentVariables : Option (List EnvironmentVariable)
  DoubleCheck : Bool
  Tags : Option (List String)
  SSLCheck : Bool
  SSLCheckDomain : String
  SetupSnippetID : Int
  TearDownSnippetID : Int
  LocalSetupScript : String
  LocalTearDownScript : String
  AlertSettings : AlertSettings
  UseGlobalAlertSettings : Bool
  Request : Request
  AlertChannelSubscriptions : Option (List Subscription)
deriving DecidableEq

/-- The zero `Check` (`var result Check` in Go). -/
def Check.zero : Check :=
  ⟨"", "", "", 0, false, false, false, none, 0, 0, "", GoTime.zero, GoTime.zero,
   none, false, none, false, "", 0, 0, "", "",
   ⟨"", ⟨0⟩, ⟨0⟩, ⟨0, 0⟩, ⟨false, 0⟩⟩, false,
   ⟨"", "", false, "", "", none, none, none, ⟨"", ""⟩⟩, none⟩

/-! ## Marshalling (Go `encoding/json` with the struct tags of src/types.go)

`json.Marshal` emits struct fields in declaration order, applies
`omitempty` (a field is empty when it is `false`, `0`, `""`, or a nil or
zero-length slice; struct-typed fields — including `time.Time` — are never
empty), escapes strings with the default HTML escaping, and renders nil
slices as `null`.  The only fallible step for these types is
`time.Time.MarshalJSON`. -/

/-- Go's JSON string escaping (`encodeState.string` with HTML escaping on). -/
def escChar (c : Char) : List Char :=
  if c == '"' then ['\\', '"']
  else if c == '\\' then ['\\', '\\']
  else if c == '\n' then ['\\', 'n']
  else if c == '\r' then ['\\', 'r']
  else if c == '\t' then ['\\', 't']
  else if c == '<' then ['\\', 'u', '0', '0', '3', 'c']
  else if c == '>' then ['\\', 'u', '0', '0', '3', 'e']
  else if c == '&' then ['\\', 'u', '0', '0', '2', '6']
  else if c.toNat < 0x20 then
    ['\\', 'u', '0', '0',
     (if c.toNat / 16 < 10 then Char.ofNat (48 + c.toNat / 16) else Char.ofNat (87 + c.toNat / 16)),
     (if c.toNat % 16 < 10 then Char.ofNat (48 + c.toNat % 16) else Char.ofNat (87 + c.toNat % 16))]
  else if c.toNat == 0x2028 then ['\\', 'u', '2', '0', '2', '8']
  else if c.toNat == 0x2029 then ['\\', 'u', '2', '0', '2', '9']
  else [c]

def jsonQuote (s : String) : String :=
  "\"" ++ String.mk (s.toList.map escChar).flatten ++ "\""

def bstr (b : Bool) : String := if b then "true" else "false"

def istr (i : Int) : String := toString i

/-- A non-nil slice rendered with `f` per element; `none` (nil) is `null`. -/
def jsonList {α : Type} (f : α → String) : Option (List α) → String
  | none => "null"
  | some xs => "[" ++ String.intercalate "," (xs.map f) ++ "]"

def jsonStrList : Option (List String) → String := jsonList jsonQuote

def marshalKeyValue (kv : KeyValue) : String :=
  "\x7b\"key\":" ++ jsonQuote kv.Key ++ ",\"value\":" ++ jsonQuote kv.Value
    ++ ",\"locked\":" ++ bstr kv.Locked ++ "\x7d"

def marshalEnvironmentVariable (kv : EnvironmentVariable) : String :=
  "\x7b\"key\":" ++ jsonQuote kv.Key ++ ",\"value\":" ++ jsonQuote kv.Value
    ++ ",\"locked\":" ++ bstr kv.Locked ++ "\x7d"

def marshalAssertion (a : Assertion) : String :=
  "\x7b\"edit\":" ++ bstr a.Edit ++ ",\"order\":" ++ istr a.Order
    ++ ",\"arrayIndex\":" ++ istr a.ArrayIndex
    ++ ",\"arraySelector\":" ++ istr a.ArraySelector
    ++ ",\"source\":" ++ jsonQuote a.Source
    ++ ",\"property\":" ++ jsonQuote a.Property
    ++ ",\"comparison\":" ++ jsonQuote a.Comparison
    ++ ",\"target\":" ++ jsonQuote a.Target ++ "\x7d"

def marshalBasicAuth (b : BasicAuth) : String :=
  "\x7b" ++ String.intercalate ","
    ((if b.Username == "" then [] else ["\"username\":" ++ jsonQuote b.Username])
      ++ (if b.Password == "" then [] else ["\"password\":" ++ jsonQuote b.Password]))
    ++ "\x7d"

def marshalRequest (r : Request) : String :=
  "\x7b\"method\":" ++ jsonQuote r.Method
    ++ ",\"url\":" ++ jsonQuote r.URL
    ++ ",\"followRedirects\":" ++ bstr r.FollowRedirects
    ++ ",\"body\":" ++ jsonQuote r.Body
    ++ (if r.BodyType == "" then "" else ",\"bodyType\":" ++ jsonQuote r.BodyType)
    ++ ",\"headers\":" ++ jsonList marshalKeyValue r.Headers
    ++ ",\"queryParameters\":" ++ jsonList marshalKeyValue r.QueryParameters
    ++ ",\"assertions\":" ++ jsonList marshalAssertion r.Assertions
    ++ ",\"basicAuth\":" ++ marshalBasicAuth r.BasicAuth ++ "\x7d"

def marshalRunBasedEscalation (r : RunBasedEscalation) : String :=
  if r.FailedRunThreshold == 0 then "\x7b\x7d"
  else "\x7b\"failedRunThreshold\":" ++ istr r.FailedRunThreshold ++ "\x7d"

def marshalTimeBasedEscalation (t : TimeBasedEscalation) : String :=
  if t.MinutesFailingThreshold == 0 then "\x7b\x7d"
  else "\x7b\"minutesFailingThreshold\":" ++ istr t.MinutesFailingThreshold ++ "\x7d"

def marshalReminders (r : Reminders) : String :=
  "\x7b" ++ String.intercalate ","
    ((if r.Amount == 0 then [] else ["\"amount\":" ++ istr r.Amount])
      ++ (if r.Interval == 0 then [] else ["\"interval\":" ++ istr r.Interval]))
    ++ "\x7d"

def marshalSSLCertificates (s : SSLCertificates) : String :=
  "\x7b\"enabled\":" ++ bstr s.Enabled
    ++ ",\"alertThreshold\":" ++ istr s.AlertThreshold ++ "\x7d"

def marshalAlertSettings (a : AlertSettings) : String :=
  "\x7b"
    ++ (if a.EscalationType == "" then ""
        else "\"escalationType\":" ++ jsonQuote a.EscalationType ++ ",")
    ++ "\"runBasedEscalation\":" ++ marshalRunBasedEscalation a.RunBasedEscalation
    ++ ",\"timeBasedEscalation\":" ++ marshalTimeBasedEscalation a.TimeBasedEscalation
    ++ ",\"reminders\":" ++ marshalReminders a.Reminders
    ++ ",\"sslCertificates\":" ++ marshalSSLCertificates a.SSLCertificates ++ "\x7d"

def marshalSubscription (s : Subscription) : String :=
  "\x7b" ++ String.intercalate ","
    ((if s.ID == "" then [] else ["\"id\":" ++ jsonQuote s.ID])
      ++ (if s.CheckID == "" then [] else ["\"checkId\":" ++ jsonQuote s.CheckID])
      ++ (if s.AlertChannelID == 0 then []
          else ["\"alertChannelId\":" ++ istr s.AlertChannelID])
      ++ ["\"activated\":" ++ bstr s.Activated])
    ++ "\x7d"

/-- The marshalled fields between `id` and `created_at` (no leading comma;
the comma following the `id` member is emitted by `marshalCheck`). -/
def checkFieldsPre (c : Check) : String :=
  "\"name\":" ++ jsonQuote c.Name
    ++ ",\"checkType\":" ++ jsonQuote c.Type'
    ++ ",\"frequency\":" ++ istr c.Frequency
    ++ ",\"activated\":" ++ bstr c.Activated
    ++ ",\"muted\":" ++ bstr c.Muted
    ++ ",\"shouldFail\":" ++ bstr c.ShouldFail
    ++ ",\"locations\":" ++ jsonStrList c.Locations
    ++ ",\"degradedResponseTime\":" ++ istr c.DegradedResponseTime
    ++ ",\"maxResponseTime\":" ++ istr c.MaxResponseTime
    ++ (if c.Script == "" then "" else ",\"script\":" ++ jsonQuote c.Script)

/-- The marshalled fields after `updated_at`, through the closing brace. -/
def checkFieldsPost (c : Check) : String :=
  ",\"environmentVariables\":"
    ++ jsonList marshalEnvironmentVariable c.EnvironmentVariables
    ++ ",\"doubleCheck\":" ++ bstr c.DoubleCheck
    ++ (match c.Tags with
        | none => ""
        | some [] => ""
        | some ts => ",\"tags\":" ++ jsonStrList (some ts))
    ++ ",\"sslCheck\":" ++ bstr c.SSLCheck
    ++ ",\"sslCheckDomain\":" ++ jsonQuote c.SSLCheckDomain
    ++ (if c.SetupSnippetID == 0 then ""
        else ",\"setupSnippetId\":" ++ istr c.SetupSnippetID)
    ++ (if c.TearDownSnippetID == 0 then ""
        else ",\"tearDownSnippetId\":" ++ istr c.TearDownSnippetID)
    ++ (if c.LocalSetupScript == "" then ""
        else ",\"localSetupScript\":" ++ jsonQuote c.LocalSetupScript)
    ++ (if c.LocalTearDownScript == "" then ""
        else ",\"localTearDownScript\":" ++ jsonQuote c.LocalTearDownScript)
    ++ ",\"alertSettings\":" ++ marshalAlertSettings c.AlertSettings
    ++ ",\"useGlobalAlertSettings\":" ++ bstr c.UseGlobalAlertSettings
    ++ ",\"request\":" ++ marshalRequest c.Request
    ++ ",\"alertChannelSubscriptions\":"
    ++ jsonList marshalSubscription c.AlertChannelSubscriptions
    ++ "\x7d"

/-- The fields of a marshalled `Check` after `id` (which is always first and
never omitted), given the already-rendered timestamps. -/
def checkFieldsTail (c : Check) (ca ua : String) : String :=
  checkFieldsPre c ++ ",\"created_at\":" ++ ca ++ ",\"updated_at\":" ++ ua
    ++ checkFieldsPost c

/-- `json.Marshal` of a `Check`.  The `created_at` and `updated_at` fields
marshal through `time.Time.MarshalJSON`, whose failure `encoding/json`
wraps in a `MarshalerError`; every other field is infallible. -/
def marshalCheck (c : Check) : Except String String :=
  match marshalTime c.CreatedAt with
  | .error e => .error ("json: error calling MarshalJSON for type time.Time: " ++ e)
  | .ok ca =>
    match marshalTime c.UpdatedAt with
    | .error e => .error ("json: error calling MarshalJSON for type time.Time: " ++ e)
    | .ok ua => .ok ("\x7b\"id\":" ++ jsonQuote c.ID ++ "," ++ checkFieldsTail c ca ua)

/-! ## Unmarshalling (Go `encoding/json` into the structs of src/types.go)

`Decode` into a struct starts from the current (zero) value, walks the
object's members in order, matches each key against a field tag —
case-insensitively, which is exact here because no two tags collide under
folding (Go uses `EqualFold`; ASCII folding via `toLower` coincides with it
on these ASCII tags) — ignores unknown keys, treats `null` as a no-op, and
reports a type error when a member's value does not fit its field. -/

/-- ASCII lower-casing of a character (the `A`-`Z` range). -/
def charLower (c : Char) : Char :=
  if 'A' ≤ c && c ≤ 'Z' then Char.ofNat (c.toNat + 32) else c

/-- ASCII case folding of a key, the effect of Go's `EqualFold` on the
ASCII-only field tags of these structs. -/
def asciiLower (s : String) : String := String.mk (s.toList.map charLower)

def decString (v : Json) (cur : String) : Except String String :=
  match v with
  | .null => .ok cur
  | .str s => .ok s
  | _ => .error "json: cannot unmarshal value into Go value of type string"

def decBool (v : Json) (cur : Bool) : Except String Bool :=
  match v with
  | .null => .ok cur
  | .bool b => .ok b
  | _ => .error "json: cannot unmarshal value into Go value of type bool"

def natOfDigits (ds : List Char) : Option Nat :=
  match ds with
  | [] => none
  | _ => ds.foldl (fun acc c => do pure ((← acc) * 10 + (← digitVal c))) (some 0)

/-- `strconv.ParseInt` on a JSON number literal: fails when the literal has
a fraction or exponent. -/
def parseIntLit (lit : String) : Option Int :=
  match lit.toList with
  | '-' :: ds => (natOfDigits ds).map (fun n => -(Int.ofNat n))
  | ds => (natOfDigits ds).map Int.ofNat

/-- Decode a JSON value into an `int`/`int64` field (64-bit, so the range
check is against `int64` bounds either way). -/
def decInt (v : Json) (cur : Int) : Except String Int :=
  match v with
  | .null => .ok cur
  | .num lit =>
    match parseIntLit lit with
    | some n =>
      if n < -(2 ^ 63) || n ≥ 2 ^ 63 then
        .error ("json: cannot unmarshal number " ++ lit ++ " into Go value of type int")
      else .ok n
    | none =>
      .error ("json: cannot unmarshal number " ++ lit ++ " into Go value of type int")
  | _ => .error "json: cannot unmarshal value into Go value of type int"

/-- `time.Time.UnmarshalJSON`: `null` is a no-op, otherwise the value must
be a JSON string holding a strict RFC3339 timestamp. -/
def decTime (v : Json) (cur : GoTime) : Except String GoTime :=
  match v with
  | .null => .ok cur
  | .str s =>
    match parseRFC3339 s with
    | some t => .ok t
    | none => .error ("parsing time \"" ++ s ++ "\" as RFC3339: cannot parse")
  | _ => .error "Time.UnmarshalJSON: input is not a JSON string"

/-- Decode a JSON value into a slice field: `null` is a no-op, an array
decodes each element into a zero element value. -/
def decSlice {α : Type} (dec : Json → α → Except String α) (z : α)
    (v : Json) (cur : Option (List α)) : Except String (Option (List α)) :=
  match v with
  | .null => .ok cur
  | .arr xs =>
    match xs.mapM (fun x => dec x z) with
    | .error e => .error e
    | .ok ys => .ok (some ys)
  | _ => .error "json: cannot unmarshal value into Go slice value"

def decStrSlice (v : Json) (cur : Option (List String)) :
    Except String (Option (List String)) :=
  decSlice decString "" v cur

/-- Walk an object's members in order, applying each to the struct being
decoded; the first field error aborts (it is the error `Decode` returns). -/
def decFields {α : Type} (apply : α → String → Json → Except String α) :
    α → List (String × Json) → Except String α
  | st, [] => .ok st
  | st, kv :: rest =>
    match apply st kv.1 kv.2 with
    | .error e => .error e
    | .ok st' => decFields apply st' rest

/-- Decode a JSON value into a struct field of type `α` given its member
handler: `null` is a no-op and a non-object is a type error. -/
def decStruct {α : Type} (apply : α → String → Json → Except String α)
    (v : Json) (cur : α) : Except String α :=
  match v with
  | .null => .ok cur
  | .obj kvs => decFields apply cur kvs
  | _ => .error "json: cannot unmarshal value into Go struct value"

def KeyValue.zero : KeyValue := ⟨"", "", false⟩
def EnvironmentVariable.zero : EnvironmentVariable := ⟨"", "", false⟩
def Assertion.zero : Assertion := ⟨false, 0, 0, 0, "", "", "", ""⟩
def Subscription.zero : Subscription := ⟨"", "", 0, false⟩

def applyKeyValueField (st : KeyValue) (k : String) (v : Json) :
    Except String KeyValue :=
  let kl := asciiLower k
  if kl = "key" then (decString v st.Key).map (fun x => { st with Key := x })
  else if kl = "value" then (decString v st.Value).map (fun x => { st with Value := x })
  else if kl = "locked" then (decBool v st.Locked).map (fun x => { st with Locked := x })
  else .ok st

def applyEnvironmentVariableField (st : EnvironmentVariable) (k : String) (v : Json) :
    Except String EnvironmentVariable :=
  let kl := asciiLower k
  if kl = "key" then (decString v st.Key).map (fun x => { st with Key := x })
  else if kl = "value" then (decString v st.Value).map (fun x => { st with Value := x })
  else if kl = "locked" then (decBool v st.Locked).map (fun x => { st with Locked := x })
  else .ok st

def applyAssertionField (st : Assertion) (k : String) (v : Json) :
    Except String Assertion :=
  let kl := asciiLower k
  if kl = "edit" then (decBool v st.Edit).map (fun x => { st with Edit := x })
  else if kl = "order" then (decInt v st.Order).map (fun x => { st with Order := x })
  else if kl = "arrayindex" then
    (decInt v st.ArrayIndex).map (fun x => { st with ArrayIndex := x })
  else if kl = "arrayselector" then
    (decInt v st.ArraySelector).map (fun x => { st with ArraySelector := x })
  else if kl = "source" then (decString v st.Source).map (fun x => { st with Source := x })
  else if kl = "property" then
    (decString v st.Property).map (fun x => { st with Property := x })
  else if kl = "comparison" then
    (decString v st.Comparison).map (fun x => { st with Comparison := x })
  else if kl = "target" then (decString v st.Target).map (fun x => { st with Target := x })
  else .ok st

def applyBasicAuthField (st : BasicAuth) (k : String) (v : Json) :
    Except String BasicAuth :=
  let kl := asciiLower k
  if kl = "username" then
    (decString v st.Username).map (fun x => { st with Username := x })
  else if kl = "password" then
    (decString v st.Password).map (fun x => { st with Password := x })
  else .ok st

def applyRequestField (st : Request) (k : String) (v : Json) :
    Except String Request :=
  let kl := asciiLower k
  if kl = "method" then (decString v st.Method).map (fun x => { st with Method := x })
  else if kl = "url" then (decString v st.URL).map (fun x => { st with URL := x })
  else if kl = "followredirects" then
    (decBool v st.FollowRedirects).map (fun x => { st with FollowRedirects := x })
  else if kl = "body" then (decString v st.Body).map (fun x => { st with Body := x })
  else if kl = "bodytype" then
    (decString v st.BodyType).map (fun x => { st with BodyType := x })
  else if kl = "headers" then
    (decSlice (decStruct applyKeyValueField) KeyValue.zero v st.Headers).map
      (fun x => { st with Headers := x })
  else if kl = "queryparameters" then
    (decSlice (decStruct applyKeyValueField) KeyValue.zero v st.QueryParameters).map
      (fun x => { st with QueryParameters := x })
  else if kl = "assertions" then
    (decSlice (decStruct applyAssertionField) Assertion.zero v st.Assertions).map
      (fun x => { st with Assertions := x })
  else if kl = "basicauth" then
    (decStruct applyBasicAuthField v st.BasicAuth).map
      (fun x => { st with BasicAuth := x })
  else .ok st

def applyRunBasedEscalationField (st : RunBasedEscalation) (k : String) (v : Json) :
    Except String RunBasedEscalation :=
  if asciiLower k = "failedrunthreshold" then
    (decInt v st.FailedRunThreshold).map (fun x => { st with FailedRunThreshold := x })
  else .ok st

def applyTimeBasedEscalationField (st : TimeBasedEscalation) (k : String) (v : Json) :
    Except String TimeBasedEscalation :=
  if asciiLower k = "minutesfailingthreshold" then
    (decInt v st.MinutesFailingThreshold).map
      (fun x => { st with MinutesFailingThreshold := x })
  else .ok st

def applyRemindersField (st : Reminders) (k : String) (v : Json) :
    Except String Reminders :=
  let kl := asciiLower k
  if kl = "amount" then (decInt v st.Amount).map (fun x => { st with Amount := x })
  else if kl = "interval" then
    (decInt v st.Interval).map (fun x => { st with Interval := x })
  else .ok st

def applySSLCertificatesField (st : SSLCertificates) (k : String) (v : Json) :
    Except String SSLCertificates :=
  let kl := asciiLower k
  if kl = "enabled" then (decBool v st.Enabled).map (fun x => { st with Enabled := x })
  else if kl = "alertthreshold" then
    (decInt v st.AlertThreshold).map (fun x => { st with AlertThreshold := x })
  else .ok st

def applyAlertSettingsField (st : AlertSettings) (k : String) (v : Json) :
    Except String AlertSettings :=
  let kl := asciiLower k
  if kl = "escalationtype" then
    (decString v st.EscalationType).map (fun x => { st with EscalationType := x })
  else if kl = "runbasedescalation" then
    (decStruct applyRunBasedEscalationField v st.RunBasedEscalation).map
      (fun x => { st with RunBasedEscalation := x })
  else if kl = "timebasedescalation" then
    (decStruct applyTimeBasedEscalationField v st.TimeBasedEscalation).map
      (fun x => { st with TimeBasedEscalation := x })
  else if kl = "reminders" then
    (decStruct applyRemindersField v st.Reminders).map
      (fun x => { st with Reminders := x })
  else if kl = "sslcertificates" then
    (decStruct applySSLCertificatesField v st.SSLCertificates).map
      (fun x => { st with SSLCertificates := x })
  else .ok st

def applySubscriptionField (st : Subscription) (k : String) (v : Json) :
    Except String Subscription :=
  let kl := asciiLower k
  if kl = "id" then (decString v st.ID).map (fun x => { st with ID := x })
  else if kl = "checkid" then
    (decString v st.CheckID).map (fun x => { st with CheckID := x })
  else if kl = "alertchannelid" then
    (decInt v st.AlertChannelID).map (fun x => { st with AlertChannelID := x })
  else if kl = "activated" then
    (decBool v st.Activated).map (fun x => { st with Activated := x })
  else .ok st

/-! Per-field updaters for `Check`, one per struct tag; `applyCheckField`
dispatches on the folded key. -/

def Check.updID (st : Check) (v : Json) : Except String Check :=
  (decString v st.ID).map (fun x => { st with ID := x })

def Check.updName (st : Check) (v : Json) : Except String Check :=
  (decString v st.Name).map (fun x => { st with Name := x })

def Check.updType (st : Check) (v : Json) : Except String Check :=
  (decString v st.Type').map (fun x => { st with Type' := x })

def Check.updFrequency (st : Check) (v : Json) : Except String Check :=
  (decInt v st.Frequency).map (fun x => { st with Frequency := x })

def Check.updActivated (st : Check) (v : Json) : Except String Check :=
  (decBool v st.Activated).map (fun x => { st with Activated := x })

def Check.updMuted (st : Check) (v : Json) : Except String Check :=
  (decBool v st.Muted).map (fun x => { st with Muted := x })

def Check.updShouldFail (st : Check) (v : Json) : Except String Check :=
  (decBool v st.ShouldFail).map (fun x => { st with ShouldFail := x })

def Check.updLocations (st : Check) (v : Json) : Except String Check :=
  (decStrSlice v st.Locations).map (fun x => { st with Locations := x })

def Check.updDegradedResponseTime (st : Check) (v : Json) : Except String Check :=
  (decInt v st.DegradedResponseTime).map (fun x => { st with DegradedResponseTime := x })

def Check.updMaxResponseTime (st : Check) (v : Json) : Except String Check :=
  (decInt v st.MaxResponseTime).map (fun x => { st with MaxResponseTime := x })

def Check.updScript (st : Check) (v : Json) : Except String Check :=
  (decString v st.Script).map (fun x => { st with Script := x })

def Check.updCreatedAt (st : Check) (v : Json) : Except String Check :=
  (decTime v st.CreatedAt).map (fun x => { st with CreatedAt := x })

def Check.updUpdatedAt (st : Check) (v : Json) : Except String Check :=
  (decTime v st.UpdatedAt).map (fun x => { st with UpdatedAt := x })

def Check.updEnvironmentVariables (st : Check) (v : Json) : Except String Check :=
  (decSlice (decStruct applyEnvironmentVariableField) EnvironmentVariable.zero v
      st.EnvironmentVariables).map
    (fun x => { st with EnvironmentVariables := x })

def Check.updDoubleCheck (st : Check) (v : Json) : Except String Check :=
  (decBool v st.DoubleCheck).map (fun x => { st with DoubleCheck := x })

def Check.updTags (st : Check) (v : Json) : Except String Check :=
  (decStrSlice v st.Tags).map (fun x => { st with Tags := x })

def Check.updSSLCheck (st : Check) (v : Json) : Except String Check :=
  (decBool v st.SSLCheck).map (fun x => { st with SSLCheck := x })

def Check.updSSLCheckDomain (st : Check) (v : Json) : Except String Check :=
  (decString v st.SSLCheckDomain).map (fun x => { st with SSLCheckDomain := x })

def Check.updSetupSnippetID (st : Check) (v : Json) : Except String Check :=
  (decInt v st.SetupSnippetID).map (fun x => { st with SetupSnippetID := x })

def Check.updTearDownSnippetID (st : Check) (v : Json) : Except String Check :=
  (decInt v st.TearDownSnippetID).map (fun x => { st with TearDownSnippetID := x })

def Check.updLocalSetupScript (st : Check) (v : Json) : Except String Check :=
  (decString v st.LocalSetupScript).map (fun x => { st with LocalSetupScript := x })

def Check.updLocalTearDownScript (st : Check) (v : Json) : Except String Check :=
  (decString v st.LocalTearDownScript).map (fun x => { st with LocalTearDownScript := x })

def Check.updAlertSettings (st : Check) (v : Json) : Except String Check :=
  (decStruct applyAlertSettingsField v st.AlertSettings).map
    (fun x => { st with AlertSettings := x })

def Check.updUseGlobalAlertSettings (st : Check) (v : Json) : Except String Check :=
  (decBool v st.UseGlobalAlertSettings).map
    (fun x => { st with UseGlobalAlertSettings := x })

def Check.updRequest (st : Check) (v : Json) : Except String Check :=
  (decStruct applyRequestField v st.Request).map (fun x => { st with Request := x })

def Check.updAlertChannelSubscriptions (st : Check) (v : Json) : Except String Check :=
  (decSlice (decStruct applySubscriptionField) Subscription.zero v
      st.AlertChannelSubscriptions).map
    (fun x => { st with AlertChannelSubscriptions := x })

def applyCheckField (st : Check) (k : String) (v : Json) : Except String Check :=
  if asciiLower k = "id" then st.updID v
  else if asciiLower k = "name" then st.updName v
  else if asciiLower k = "checktype" then st.updType v
  else if asciiLower k = "frequency" then st.updFrequency v
  else if asciiLower k = "activated" then st.updActivated v
  else if asciiLower k = "muted" then st.updMuted v
  else if asciiLower k = "shouldfail" then st.updShouldFail v
  else if asciiLower k = "locations" then st.updLocations v
  else if asciiLower k = "degradedresponsetime" then st.updDegradedResponseTime v
  else if asciiLower k = "maxresponsetime" then st.updMaxResponseTime v
  else if asciiLower k = "script" then st.updScript v
  else if asciiLower k = "created_at" then st.updCreatedAt v
  else if asciiLower k = "updated_at" then st.updUpdatedAt v
  else if asciiLower k = "environmentvariables" then st.updEnvironmentVariables v
  else if asciiLower k = "doublecheck" then st.updDoubleCheck v
  else if asciiLower k = "tags" then st.updTags v
  else if asciiLower k = "sslcheck" then st.updSSLCheck v
  else if asciiLower k = "sslcheckdomain" then st.updSSLCheckDomain v
  else if asciiLower k = "setupsnippetid" then st.updSetupSnippetID v
  else if asciiLower k = "teardownsnippetid" then st.updTearDownSnippetID v
  else if asciiLower k = "localsetupscript" then st.updLocalSetupScript v
  else if asciiLower k = "localteardownscript" then st.updLocalTearDownScript v
  else if asciiLower k = "alertsettings" then st.updAlertSettings v
  else if asciiLower k = "useglobalalertsettings" then st.updUseGlobalAlertSettings v
  else if asciiLower k = "request" then st.updRequest v
  else if asciiLower k = "alertchannelsubscriptions" then st.updAlertChannelSubscriptions v
  else .ok st

/-- Decode a JSON value into a `Check` starting from `cur`. -/
def decCheckVal (v : Json) (cur : Check) : Except String Check :=
  decStruct applyCheckField v cur

/-- `json.NewDecoder(strings.NewReader(res)).Decode(&result)` with
`var result Check`: parse the first JSON value of the body and decode it
into the zero `Check`. -/
def decodeCheck (s : String) : Except String Check :=
  match parseTop s with
  | .error e => .error e
  | .ok v => decCheckVal v Check.zero

/-! ## The HTTP layer (src/checkly.go)

Go errors are structural here: one constructor per `fmt.Errorf` site (or
per error returned verbatim), carrying exactly the data the format verbs
interpolate.  `GoErr.unexpectedStatus status body` is
`fmt.Errorf("unexpected response status %d: %q", status, res)`, and so on. -/

inductive GoErr where
  /-- the error `json.Marshal` returned, passed through verbatim -/
  | marshalErr (msg : String)
  /-- `fmt.Errorf("failed to create HTTP request: %v", err)` -/
  | newRequestErr (msg : String)
  /-- `fmt.Errorf("error dumping HTTP request: %v", err)` -/
  | dumpErr (msg : String)
  /-- `fmt.Errorf("HTTP request failed: %v", err)` -/
  | httpErr (msg : String)
  /-- the `ioutil.ReadAll` error, returned verbatim -/
  | readErr (msg : String)
  /-- `fmt.Errorf("unexpected response status %d: %q", status, res)` -/
  | unexpectedStatus (status : Int) (body : String)
  /-- `fmt.Errorf("decoding error for data %s: %v", res, err)` -/
  | decodeErr (body : String) (msg : String)
deriving DecidableEq

/-- The outgoing `*http.Request` as `MakeAPICall` builds it: method, the
absolute URL, the two headers it sets, and the body bytes
(`bytes.NewBuffer(data)`, empty for nil data). -/
structure HTTPRequest where
  method : String
  url : String
  authorization : String
  contentType : String
  body : String
deriving DecidableEq

/-- What one `HTTPClient.Do` round trip yields: the status code and the
outcome of reading the response body (`ioutil.ReadAll(resp.Body)`). -/
structure HTTPResponse where
  statusCode : Int
  bodyData : Except String String

/-- A Checkly client (src/types.go).  `HTTPClient` is the transport's `Do`;
`Debug` is whether an `io.Writer` debug sink is set. -/
structure Client where
  apiKey : String
  URL : String
  HTTPClient : HTTPRequest → Except String HTTPResponse
  Debug : Bool

/-- Outcomes of the remaining external calls `MakeAPICall` makes, per call:
`http.NewRequest` (fails only on a malformed method/URL),
`httputil.DumpRequestOut` and `httputil.DumpResponse` (each either dump
text or an error), and the results of the `fmt.Fprintln` writes to the
debug sink, which the Go code discards. -/
structure World where
  newRequestErr : Option String
  dumpRequestOut : Except String String
  dumpResponse : Except String String
  reqWriteErr : Option String
  respWriteErr : Option String

/-- Result of `MakeAPICall`, with the effects made explicit: the client
after the call (the Go methods never write to it), the three return values,
the requests handed to `HTTPClient.Do`, and the lines written to the debug
sink. -/
structure APIResult where
  client : Client
  status : Int
  response : String
  error : Option GoErr
  sent : List HTTPRequest
  debugOut : List String

/-- Lines 105–111 of checkly.go: the absolute URL is
`c.URL + "/v1/" + URL`, with the bearer-token and content-type headers. -/
def buildRequest (c : Client) (method URL : String) (data : Option String) :
    HTTPRequest :=
  { method := method
    url := c.URL ++ "/v1/" ++ URL
    authorization := "Bearer " ++ c.apiKey
    contentType := "application/json"
    body := data.getD "" }

/-- `c.dumpResponse(resp)`: the dump error is discarded (`responseDump, _`),
so a failed dump prints an empty line; each `Fprintln` adds a line. -/
def dumpResponseLines (env : World) : List String :=
  [match env.dumpResponse with
   | .ok t => t
   | .error _ => "", ""]

/-- The rest of `MakeAPICall` after the request dump: one `HTTPClient.Do`
call, the response dump when tracing (errors ignored), then the body read.
`dbg` holds the debug lines written so far. -/
def afterDump (c : Client) (env : World) (req : HTTPRequest) (dbg : List String) :
    APIResult :=
  match c.HTTPClient req with
  | .error e => ⟨c, 0, "", some (.httpErr e), [req], dbg⟩
  | .ok resp =>
    let dbg2 := dbg ++ (if c.Debug then dumpResponseLines env else [])
    match resp.bodyData with
    | .error e => ⟨c, resp.statusCode, "", some (.readErr e), [req], dbg2⟩
    | .ok res => ⟨c, resp.statusCode, res, none, [req], dbg2⟩

/-- `MakeAPICall` (checkly.go lines 104–133). -/
def Client.MakeAPICall (c : Client) (env : World) (method URL : String)
    (data : Option String) : APIResult :=
  match env.newRequestErr with
  | some e => ⟨c, 0, "", some (.newRequestErr e), [], []⟩
  | none =>
    let req := buildRequest c method URL data
    if c.Debug then
      match env.dumpRequestOut with
      | .error e => ⟨c, 0, "", some (.dumpErr e), [], []⟩
      | .ok dumpText => afterDump c env req [dumpText, ""]
    else afterDump c env req []

/-- Result of `Create`: the client, the returned ID and error, and the
call's request/debug traces. -/
structure CreateResult where
  client : Client
  id : String
  error : Option GoErr
  sent : List HTTPRequest
  debugOut : List String

/-- Result of `Update` or `Delete`. -/
structure StatusResult where
  client : Client
  error : Option GoErr
  sent : List HTTPRequest
  debugOut : List String

/-- Result of `Get`. -/
structure GetResult where
  client : Client
  check : Check
  error : Option GoErr
  sent : List HTTPRequest
  debugOut : List String

/-- `Create` (checkly.go lines 32–49). -/
def Client.Create (c : Client) (env : World) (check : Check) : CreateResult :=
  match marshalCheck check with
  | .error e => ⟨c, "", some (.marshalErr e), [], []⟩
  | .ok data =>
    let r := c.MakeAPICall env "POST" "checks" (some data)
    match r.error with
    | some e => ⟨r.client, "", some e, r.sent, r.debugOut⟩
    | none =>
      if r.status ≠ 201 then
        ⟨r.client, "", some (.unexpectedStatus r.status r.response), r.sent, r.debugOut⟩
      else
        match decodeCheck r.response with
        | .error e => ⟨r.client, "", some (.decodeErr r.response e), r.sent, r.debugOut⟩
        | .ok result => ⟨r.client, result.ID, none, r.sent, r.debugOut⟩

/-- `Update` (checkly.go lines 53–70). -/
def Client.Update (c : Client) (env : World) (ID : String) (check : Check) :
    StatusResult :=
  match marshalCheck check with
  | .error e => ⟨c, some (.marshalErr e), [], []⟩
  | .ok data =>
    let r := c.MakeAPICall env "PUT" ("checks/" ++ ID) (some data)
    match r.error with
    | some e => ⟨r.client, some e, r.sent, r.debugOut⟩
    | none =>
      if r.status ≠ 200 then
        ⟨r.client, some (.unexpectedStatus r.status r.response), r.sent, r.debugOut⟩
      else
        match decodeCheck r.response with
        | .error e => ⟨r.client, some (.decodeErr r.response e), r.sent, r.debugOut⟩
        | .ok _result => ⟨r.client, none, r.sent, r.debugOut⟩

/-- `Delete` (checkly.go lines 74–83). -/
def Client.Delete (c : Client) (env : World) (ID : String) : StatusResult :=
  let r := c.MakeAPICall env "DELETE" ("checks/" ++ ID) none
  match r.error with
  | some e => ⟨r.client, some e, r.sent, r.debugOut⟩
  | none =>
    if r.status ≠ 204 then
      ⟨r.client, some (.unexpectedStatus r.status r.response), r.sent, r.debugOut⟩
    else ⟨r.client, none, r.sent, r.debugOut⟩

/-- `Get` (checkly.go lines 87–100). -/
def Client.Get (c : Client) (env : World) (ID : String) : GetResult :=
  let r := c.MakeAPICall env "GET" ("checks/" ++ ID) none
  match r.error with
  | some e => ⟨r.client, Check.zero, some e, r.sent, r.debugOut⟩
  | none =>
    if r.status ≠ 200 then
      ⟨r.client, Check.zero, some (.unexpectedStatus r.status r.response), r.sent,
        r.debugOut⟩
    else
      match decodeCheck r.response with
      | .error e =>
        ⟨r.client, Check.zero, some (.decodeErr r.response e), r.sent, r.debugOut⟩
      | .ok check => ⟨r.client, check, none, r.sent, r.debugOut⟩

/-! ## Helper lemmas -/

/-- The Go-visible result of `MakeAPICall`: its three return values. -/
def callResult (r : APIResult) : Int × String × Option GoErr :=
  (r.status, r.response, r.error)

theorem strAppend_assoc (a b c : String) : a ++ b ++ c = a ++ (b ++ c) := by
  cases a with
  | mk la =>
    cases b with
    | mk lb =>
      cases c with
      | mk lc =>
        show String.mk (la ++ lb ++ lc) = String.mk (la ++ (lb ++ lc))
        rw [List.append_assoc]

theorem exceptMap_ok {α β : Type} {r : Except String α} {f : α → β} {y : β}
    (h : r.map f = .ok y) : ∃ x, r = .ok x ∧ y = f x := by
  cases r with
  | error e => simp [Except.map] at h
  | ok x => exact ⟨x, rfl, by simpa [Except.map] using h.symm⟩

theorem afterDump_client (c : Client) (env : World) (req : HTTPRequest)
    (dbg : List String) : (afterDump c env req dbg).client = c := by
  unfold afterDump
  split
  · rfl
  · dsimp only
    split <;> rfl

theorem afterDump_sent (c : Client) (env : World) (req : HTTPRequest)
    (dbg : List String) : (afterDump c env req dbg).sent = [req] := by
  unfold afterDump
  split
  · rfl
  · dsimp only
    split <;> rfl

theorem afterDump_result (c : Client) (env env' : World) (req : HTTPRequest)
    (dbg dbg' : List String) :
    callResult (afterDump c env req dbg) = callResult (afterDump c env' req dbg') := by
  unfold afterDump callResult
  rcases hdo : c.HTTPClient req with e | resp
  · rfl
  · dsimp only
    rcases hb : resp.bodyData with e | s <;> rfl

theorem MakeAPICall_client (c : Client) (env : World) (m u : String)
    (d : Option String) : (c.MakeAPICall env m u d).client = c := by
  unfold Client.MakeAPICall
  split
  · rfl
  · dsimp only
    split
    · split
      · rfl
      · apply afterDump_client
    · apply afterDump_client

theorem MakeAPICall_sent (c : Client) (env : World) (m u : String)
    (d : Option String) :
    (c.MakeAPICall env m u d).sent = [] ∨
      (c.MakeAPICall env m u d).sent = [buildRequest c m u d] := by
  unfold Client.MakeAPICall
  split
  · exact Or.inl rfl
  · dsimp only
    split
    · split
      · exact Or.inl rfl
      · exact Or.inr (afterDump_sent ..)
    · exact Or.inr (afterDump_sent ..)

theorem mem_MakeAPICall_sent {c : Client} {env : World} {m u : String}
    {d : Option String} {r : HTTPRequest}
    (h : r ∈ (c.MakeAPICall env m u d).sent) : r = buildRequest c m u d := by
  rcases MakeAPICall_sent c env m u d with hs | hs <;> rw [hs] at h
  · cases h
  · simpa using h

theorem MakeAPICall_sent_length (c : Client) (env : World) (m u : String)
    (d : Option String) : (c.MakeAPICall env m u d).sent.length ≤ 1 := by
  rcases MakeAPICall_sent c env m u d with hs | hs <;> rw [hs] <;> simp

/-- When the steps before the transport succeed, `MakeAPICall` hands exactly
the built request to `HTTPClient.Do`. -/
theorem MakeAPICall_sent_one (c : Client) (env : World) (m u : String)
    (d : Option String) (hn : env.newRequestErr = none)
    (hd : c.Debug = true → ∃ s, env.dumpRequestOut = .ok s) :
    (c.MakeAPICall env m u d).sent = [buildRequest c m u d] := by
  unfold Client.MakeAPICall
  rw [hn]
  dsimp only
  by_cases hb : c.Debug
  · rw [if_pos hb]
    obtain ⟨s, hs⟩ := hd hb
    rw [hs]
    exact afterDump_sent ..
  · rw [if_neg hb]
    exact afterDump_sent ..

theorem Create_sent_cases (c : Client) (env : World) (check : Check) :
    (∃ e, marshalCheck check = .error e ∧ (c.Create env check).sent = []) ∨
    (∃ data, marshalCheck check = .ok data ∧
      (c.Create env check).sent = (c.MakeAPICall env "POST" "checks" (some data)).sent) := by
  unfold Client.Create
  cases hm : marshalCheck check with
  | error e => exact Or.inl ⟨e, rfl, rfl⟩
  | ok data =>
    refine Or.inr ⟨data, rfl, ?_⟩
    dsimp only
    split
    · rfl
    · split
      · rfl
      · split <;> rfl

theorem Update_sent_cases (c : Client) (env : World) (ID : String) (check : Check) :
    (∃ e, marshalCheck check = .error e ∧ (c.Update env ID check).sent = []) ∨
    (∃ data, marshalCheck check = .ok data ∧
      (c.Update env ID check).sent
        = (c.MakeAPICall env "PUT" ("checks/" ++ ID) (some data)).sent) := by
  unfold Client.Update
  cases hm : marshalCheck check with
  | error e => exact Or.inl ⟨e, rfl, rfl⟩
  | ok data =>
    refine Or.inr ⟨data, rfl, ?_⟩
    dsimp only
    split
    · rfl
    · split
      · rfl
      · split <;> rfl

theorem Delete_sent (c : Client) (env : World) (ID : String) :
    (c.Delete env ID).sent = (c.MakeAPICall env "DELETE" ("checks/" ++ ID) none).sent := by
  unfold Client.Delete
  dsimp only
  split
  · rfl
  · split <;> rfl

theorem Get_sent (c : Client) (env : World) (ID : String) :
    (c.Get env ID).sent = (c.MakeAPICall env "GET" ("checks/" ++ ID) none).sent := by
  unfold Client.Get
  dsimp only
  split
  · rfl
  · split
    · rfl
    · split <;> rfl

/-- When marshalling succeeded, the transport reported no error, the status
is 201 and the body decodes, `Create` returns the decoded check's ID. -/
theorem Create_ok_of_decode (c : Client) (env : World) (check : Check)
    (data : String) (chk : Check)
    (hm : marshalCheck check = .ok data)
    (he : (c.MakeAPICall env "POST" "checks" (some data)).error = none)
    (hs : (c.MakeAPICall env "POST" "checks" (some data)).status = 201)
    (hd : decodeCheck (c.MakeAPICall env "POST" "checks" (some data)).response
      = .ok chk) :
    (c.Create env check).id = chk.ID ∧ (c.Create env check).error = none := by
  unfold Client.Create
  rw [hm]
  dsimp only
  rw [he]
  dsimp only
  rw [hs]
  simp only [ne_eq, not_true_eq_false, if_false, reduceIte]
  rw [hd]
  exact ⟨rfl, rfl⟩

/-- An object member that cannot set a non-empty ID: its key does not fold
to the `id` tag, or its value is the empty JSON string. -/
def idExempt (kv : String × Json) : Bool :=
  asciiLower kv.1 != "id"
    || (match kv.2 with
        | .str s => s == ""
        | _ => false)

theorem applyCheckField_ID_set (st : Check) (k s : String) (st' : Check)
    (hk : asciiLower k = "id") (h : applyCheckField st k (.str s) = .ok st') :
    st'.ID = s := by
  unfold applyCheckField at h
  rw [if_pos hk] at h
  unfold Check.updID at h
  obtain ⟨x, hx, rfl⟩ := exceptMap_ok h
  simp only [decString] at hx
  cases hx
  rfl

theorem applyCheckField_ID_frame (st : Check) (k : String) (v : Json) (st' : Check)
    (hk : ¬ asciiLower k = "id") (h : applyCheckField st k v = .ok st') :
    st'.ID = st.ID := by
  unfold applyCheckField at h
  rw [if_neg hk] at h
  by_cases h1 : asciiLower k = "name"
  · rw [if_pos h1] at h
    unfold Check.updName at h
    obtain ⟨x, hx, rfl⟩ := exceptMap_ok h
    rfl
  · rw [if_neg h1] at h
    by_cases h2 : asciiLower k = "checktype"
    · rw [if_pos h2] at h
      unfold Check.updType at h
      obtain ⟨x, hx, rfl⟩ := exceptMap_ok h
      rfl
    · rw [if_neg h2] at h
      by_cases h3 : asciiLower k = "frequency"
      · rw [if_pos h3] at h
        unfold Check.updFrequency at h
        obtain ⟨x, hx, rfl⟩ := exceptMap_ok h
        rfl
      · rw [if_neg h3] at h
        by_cases h4 : asciiLower k = "activated"
        · rw [if_pos h4] at h
          unfold Check.updActivated at h
          obtain ⟨x, hx, rfl⟩ := exceptMap_ok h
          rfl
        · rw [if_neg h4] at h
          by_cases h5 : asciiLower k = "muted"
          · rw [if_pos h5] at h
            unfold Check.updMuted at h
            obtain ⟨x, hx, rfl⟩ := exceptMap_ok h
            rfl
          · rw [if_neg h5] at h
            by_cases h6 : asciiLower k = "shouldfail"
            · rw [if_pos h6] at h
              unfold Check.updShouldFail at h
              obtain ⟨x, hx, rfl⟩ := exceptMap_ok h
              rfl
            · rw [if_neg h6] at h
              by_cases h7 : asciiLower k = "locations"
              · rw [if_pos h7] at h
                unfold Check.updLocations at h
                obtain ⟨x, hx, rfl⟩ := exceptMap_ok h
                rfl
              · rw [if_neg h7] at h
                by_cases h8 : asciiLower k = "degradedresponsetime"
                · rw [if_pos h8] at h
                  unfold Check.updDegradedResponseTime at h
                  obtain ⟨x, hx, rfl⟩ := exceptMap_ok h
                  rfl
                · rw [if_neg h8] at h
                  by_cases h9 : asciiLower k = "maxresponsetime"
                  · rw [if_pos h9] at h
                    unfold Check.updMaxResponseTime at h
                    obtain ⟨x, hx, rfl⟩ := exceptMap_ok h
                    rfl
                  · rw [if_neg h9] at h
                    by_cases h10 : asciiLower k = "script"
                    · rw [if_pos h10] at h
                      unfold Check.updScript at h
                      obtain ⟨x, hx, rfl⟩ := exceptMap_ok h
                      rfl
                    · rw [if_neg h10] at h
                      by_cases h11 : asciiLower k = "created_at"
                      · rw [if_pos h11] at h
                        unfold Check.updCreatedAt at h
                        obtain ⟨x, hx, rfl⟩ := exceptMap_ok h
                        rfl
                      · rw [if_neg h11] at h
                        by_cases h12 : asciiLower k = "updated_at"
                        · rw [if_pos h12] at h
                          unfold Check.updUpdatedAt at h
                          obtain ⟨x, hx, rfl⟩ := exceptMap_ok h
                          rfl
                        · rw [if_neg h12] at h
                          by_cases h13 : asciiLower k = "environmentvariables"
                          · rw [if_pos h13] at h
                            unfold Check.updEnvironmentVariables at h
                            obtain ⟨x, hx, rfl⟩ := exceptMap_ok h
                            rfl
                          · rw [if_neg h13] at h
                            by_cases h14 : asciiLower k = "doublecheck"
                            · rw [if_pos h14] at h
                              unfold Check.updDoubleCheck at h
                              obtain ⟨x, hx, rfl⟩ := exceptMap_ok h
                              rfl
                            · rw [if_neg h14] at h
                              by_cases h15 : asciiLower k = "tags"
                              · rw [if_pos h15] at h
                                unfold Check.updTags at h
                                obtain ⟨x, hx, rfl⟩ := exceptMap_ok h
                                rfl
                              · rw [if_neg h15] at h
                                by_cases h16 : asciiLower k = "sslcheck"
                                · rw [if_pos h16] at h
                                  unfold Check.updSSLCheck at h
                                  obtain ⟨x, hx, rfl⟩ := exceptMap_ok h
                                  rfl
                                · rw [if_neg h16] at h
                                  by_cases h17 : asciiLower k = "sslcheckdomain"
                                  · rw [if_pos h17] at h
                                    unfold Check.updSSLCheckDomain at h
                                    obtain ⟨x, hx, rfl⟩ := exceptMap_ok h
                                    rfl
                                  · rw [if_neg h17] at h
                                    by_cases h18 : asciiLower k = "setupsnippetid"
                                    · rw [if_pos h18] at h
                                      unfold Check.updSetupSnippetID at h
                                      obtain ⟨x, hx, rfl⟩ := exceptMap_ok h
                                      rfl
                                    · rw [if_neg h18] at h
                                      by_cases h19 : asciiLower k = "teardownsnippetid"
                                      · rw [if_pos h19] at h
                                        unfold Check.updTearDownSnippetID at h
                                        obtain ⟨x, hx, rfl⟩ := exceptMap_ok h
                                        rfl
                                      · rw [if_neg h19] at h
                                        by_cases h20 : asciiLower k = "localsetupscript"
                                        · rw [if_pos h20] at h
                                          unfold Check.updLocalSetupScript at h
                                          obtain ⟨x, hx, rfl⟩ := exceptMap_ok h
                                          rfl
                                        · rw [if_neg h20] at h
                                          by_cases h21 : asciiLower k = "localteardownscript"
                                          · rw [if_pos h21] at h
                                            unfold Check.updLocalTearDownScript at h
                                            obtain ⟨x, hx, rfl⟩ := exceptMap_ok h
                                            rfl
                                          · rw [if_neg h21] at h
                                            by_cases h22 : asciiLower k = "alertsettings"
                                            · rw [if_pos h22] at h
                                              unfold Check.updAlertSettings at h
                                              obtain ⟨x, hx, rfl⟩ := exceptMap_ok h
                                              rfl
                                            · rw [if_neg h22] at h
                                              by_cases h23 : asciiLower k = "useglobalalertsettings"
                                              · rw [if_pos h23] at h
                                                unfold Check.updUseGlobalAlertSettings at h
                                                obtain ⟨x, hx, rfl⟩ := exceptMap_ok h
                                                rfl
                                              · rw [if_neg h23] at h
                                                by_cases h24 : asciiLower k = "request"
                                                · rw [if_pos h24] at h
                                                  unfold Check.updRequest at h
                                                  obtain ⟨x, hx, rfl⟩ := exceptMap_ok h
                                                  rfl
                                                · rw [if_neg h24] at h
                                                  by_cases h25 : asciiLower k = "alertchannelsubscriptions"
                                                  · rw [if_pos h25] at h
                                                    unfold Check.updAlertChannelSubscriptions at h
                                                    obtain ⟨x, hx, rfl⟩ := exceptMap_ok h
                                                    rfl
                                                  · rw [if_neg h25] at h
                                                    cases h
                                                    rfl

theorem decFields_check_ID (kvs : List (String × Json)) (st chk : Check)
    (h : decFields applyCheckField st kvs = .ok chk)
    (hk : kvs.all idExempt = true) (hst : st.ID = "") : chk.ID = "" := by
  induction kvs generalizing st with
  | nil =>
    unfold decFields at h
    cases h
    exact hst
  | cons kv rest ih =>
    unfold decFields at h
    rcases happ : applyCheckField st kv.1 kv.2 with e | st'
    · rw [happ] at h
      cases h
    · rw [happ] at h
      dsimp only at h
      rw [List.all_cons, Bool.and_eq_true] at hk
      refine ih st' h hk.2 ?_
      by_cases hkey : asciiLower kv.1 = "id"
      · have h1 : (match kv.2 with | Json.str s => s == "" | _ => false) = true := by
          have hk1 := hk.1
          unfold idExempt at hk1
          rw [hkey] at hk1
          simpa using hk1
        rcases hv2 : kv.2 with _ | b | lit | s | xs | fs <;> rw [hv2] at h1 <;>
          simp at h1
        rw [hv2] at happ
        rw [applyCheckField_ID_set st kv.1 s st' hkey happ]
        exact h1
      · rw [applyCheckField_ID_frame st kv.1 kv.2 st' hkey happ]
        exact hst

theorem decodeCheck_obj (body : String) (kvs : List (String × Json)) (chk : Check)
    (hp : parseTop body = .ok (.obj kvs)) (hd : decodeCheck body = .ok chk) :
    decFields applyCheckField Check.zero kvs = .ok chk := by
  unfold decodeCheck at hd
  rw [hp] at hd
  exact hd

/-! ## Concrete fixtures used by witnesses and counterexamples -/

/-- An environment where every external call succeeds. -/
def envOK : World := ⟨none, .ok "REQDUMP", .ok "RESPDUMP", none, none⟩

/-- Same but `httputil.DumpRequestOut` fails. -/
def envDumpFail : World := ⟨none, .error "boom", .ok "RESPDUMP", none, none⟩

/-- A check whose `CreatedAt` year 10000 makes `json.Marshal` fail. -/
def badTimeCheck : Check :=
  { Check.zero with CreatedAt := { GoTime.zero with year := 10000 } }

/-- Server replying 201 with a body whose `id` is a string but whose `name`
is a number — an object with an `id` field that does not decode as a check. -/
def cBadField : Client :=
  ⟨"key", "http://api.test",
    fun _ => .ok ⟨201, .ok "\x7b\"id\":\"x\",\"name\":0\x7d"⟩, false⟩

/-- Server replying 201 with `\x7b"id":"abc"\x7d`. -/
def cIdOnly : Client :=
  ⟨"key", "http://api.test", fun _ => .ok ⟨201, .ok "\x7b\"id\":\"abc\"\x7d"⟩, false⟩

/-- Server replying 201 with an empty JSON object. -/
def cEmptyObj : Client :=
  ⟨"key", "http://api.test", fun _ => .ok ⟨201, .ok "\x7b\x7d"⟩, false⟩

/-- Server replying 500 with body `oops`. -/
def cStatus500 : Client :=
  ⟨"key", "http://api.test", fun _ => .ok ⟨500, .ok "oops"⟩, false⟩

/-- Server replying 204 with an empty body. -/
def cNoContent : Client :=
  ⟨"key", "http://api.test", fun _ => .ok ⟨204, .ok ""⟩, false⟩

/-- Server replying 200, but reading the response body fails. -/
def cReadFail : Client :=
  ⟨"key", "http://api.test", fun _ => .ok ⟨200, .error "read fail"⟩, false⟩

/-- A client with tracing enabled, server replying 200 `ok`. -/
def cTraced : Client :=
  ⟨"key", "http://api.test", fun _ => .ok ⟨200, .ok "ok"⟩, true⟩

/-- Whether `pat` occurs as a contiguous substring of `s`. -/
def containsSub (s pat : String) : Bool :=
  (List.range (s.toList.length + 1)).any
    (fun i => pat.toList.isPrefixOf (s.toList.drop i))

/-! ## The claims -/

/-- C4: for every `Check` input, if the transport succeeds but returns any
status other than 201, `Create` returns the empty string and an error
carrying the status code and the raw response body. -/
theorem c4_create_unexpected_status (c : Client) (env : World) (check : Check)
    (data : String)
    (hm : marshalCheck check = .ok data)
    (he : (c.MakeAPICall env "POST" "checks" (some data)).error = none)
    (hs : (c.MakeAPICall env "POST" "checks" (some data)).status ≠ 201) :
    (c.Create env check).id = ""
    ∧ (c.Create env check).error
      = some (.unexpectedStatus (c.MakeAPICall env "POST" "checks" (some data)).status
          (c.MakeAPICall env "POST" "checks" (some data)).response) := by
  unfold Client.Create
  rw [hm]
  dsimp only
  rw [he]
  dsimp only
  rw [if_pos hs]
  exact ⟨rfl, rfl⟩

/-- C4 witness: a 500 response with body `oops` makes `Create` return
`("", unexpected status error carrying 500 and "oops")`. -/
theorem c4_witness :
    (cStatus500.Create envOK Check.zero).id = ""
    ∧ (cStatus500.Create envOK Check.zero).error
      = some (.unexpectedStatus 500 "oops") :=
  c4_create_unexpected_status cStatus500 envOK Check.zero
    ((marshalCheck Check.zero).toOption.getD "") (by rfl) (by rfl) (by decide)

/-- C5: for every ID, if the transport succeeds, `Delete` returns no error
exactly when the status is 204, and otherwise an error carrying the status
code and response body. -/
theorem c5_delete_status (c : Client) (env : World) (ID : String)
    (he : (c.MakeAPICall env "DELETE" ("checks/" ++ ID) none).error = none) :
    ((c.Delete env ID).error = none
      ↔ (c.MakeAPICall env "DELETE" ("checks/" ++ ID) none).status = 204)
    ∧ ((c.MakeAPICall env "DELETE" ("checks/" ++ ID) none).status ≠ 204 →
        (c.Delete env ID).error
          = some (.unexpectedStatus
              (c.MakeAPICall env "DELETE" ("checks/" ++ ID) none).status
              (c.MakeAPICall env "DELETE" ("checks/" ++ ID) none).response)) := by
  unfold Client.Delete
  dsimp only
  rw [he]
  dsimp only
  by_cases h204 : (c.MakeAPICall env "DELETE" ("checks/" ++ ID) none).status = 204
  · rw [if_neg (by simpa using h204)]
    exact ⟨by simpa using h204, fun hne => absurd h204 hne⟩
  · rw [if_pos h204]
    exact ⟨by simpa using h204, fun _ => rfl⟩

/-- C5 witness: a 204 reply gives no error; a 500 reply with body `oops`
gives the unexpected-status error carrying 500 and "oops". -/
theorem c5_witness :
    (cNoContent.Delete envOK "abc").error = none
    ∧ (cStatus500.Delete envOK "abc").error
      = some (.unexpectedStatus 500 "oops") := by
  refine ⟨?_, ?_⟩
  · exact (c5_delete_status cNoContent envOK "abc" (by rfl)).1.mpr (by rfl)
  · exact (c5_delete_status cStatus500 envOK "abc" (by rfl)).2 (by decide)

/-- C6: a `Check` whose JSON encoding fails makes `Create` and `Update`
return the serialization error with no request issued (`sent = []`). -/
theorem c6_serialization_error (c : Client) (env : World) (check : Check)
    (ID e : String) (hm : marshalCheck check = .error e) :
    c.Create env check = ⟨c, "", some (.marshalErr e), [], []⟩
    ∧ c.Update env ID check = ⟨c, some (.marshalErr e), [], []⟩ := by
  unfold Client.Create Client.Update
  rw [hm]
  exact ⟨rfl, rfl⟩

/-- C6 witness: the out-of-range `created_at` year makes marshalling fail,
and both operations return that error without touching the transport. -/
theorem c6_witness :
    cIdOnly.Create envOK badTimeCheck
      = ⟨cIdOnly, "",
          some (.marshalErr
            "json: error calling MarshalJSON for type time.Time: Time.MarshalJSON: year outside of range [0,9999]"),
          [], []⟩
    ∧ cIdOnly.Update envOK "abc" badTimeCheck
      = ⟨cIdOnly,
          some (.marshalErr
            "json: error calling MarshalJSON for type time.Time: Time.MarshalJSON: year outside of range [0,9999]"),
          [], []⟩ :=
  c6_serialization_error cIdOnly envOK badTimeCheck "abc" _ (by rfl)

/-- C7: when the HTTP exchange yields a response but reading its body
fails, `MakeAPICall` returns the received status code, an empty body, and
the read error. -/
theorem c7_read_error (c : Client) (env : World) (m u : String)
    (d : Option String) (resp : HTTPResponse) (e : String)
    (hn : env.newRequestErr = none)
    (hd : c.Debug = true → ∃ s, env.dumpRequestOut = .ok s)
    (hdo : c.HTTPClient (buildRequest c m u d) = .ok resp)
    (hr : resp.bodyData = .error e) :
    (c.MakeAPICall env m u d).status = resp.statusCode
    ∧ (c.MakeAPICall env m u d).response = ""
    ∧ (c.MakeAPICall env m u d).error = some (.readErr e) := by
  unfold Client.MakeAPICall
  rw [hn]
  dsimp only
  by_cases hb : c.Debug
  · rw [if_pos hb]
    obtain ⟨s, hs⟩ := hd hb
    rw [hs]
    unfold afterDump
    rw [hdo]
    dsimp only
    rw [hr]
    exact ⟨rfl, rfl, rfl⟩
  · rw [if_neg hb]
    unfold afterDump
    rw [hdo]
    dsimp only
    rw [hr]
    exact ⟨rfl, rfl, rfl⟩

/-- C7 witness: a 200 response whose body read fails with `read fail`
yields `(200, "", read fail)`. -/
theorem c7_witness :
    (cReadFail.MakeAPICall envOK "GET" "checks/abc" none).status = 200
    ∧ (cReadFail.MakeAPICall envOK "GET" "checks/abc" none).response = ""
    ∧ (cReadFail.MakeAPICall envOK "GET" "checks/abc" none).error
      = some (.readErr "read fail") :=
  c7_read_error cReadFail envOK "GET" "checks/abc" none ⟨200, .error "read fail"⟩
    "read fail" (by rfl) (fun _ => ⟨"REQDUMP", rfl⟩) (by rfl) (by rfl)

/-- C9: no operation mutates the client: after `Create`, `Get`, `Update`
or `Delete` the client configuration (API key, base URL, transport handle,
debug sink) is the one the call started from. -/
theorem c9_client_unchanged (c : Client) (env : World) (check : Check)
    (ID : String) :
    (c.Create env check).client = c ∧ (c.Get env ID).client = c
    ∧ (c.Update env ID check).client = c ∧ (c.Delete env ID).client = c := by
  refine ⟨?_, ?_, ?_, ?_⟩
  · unfold Client.Create
    cases hm : marshalCheck check with
    | error e => rfl
    | ok data =>
      dsimp only
      split
      · apply MakeAPICall_client
      · split
        · apply MakeAPICall_client
        · split <;> apply MakeAPICall_client
  · unfold Client.Get
    dsimp only
    split
    · apply MakeAPICall_client
    · split
      · apply MakeAPICall_client
      · split <;> apply MakeAPICall_client
  · unfold Client.Update
    cases hm : marshalCheck check with
    | error e => rfl
    | ok data =>
      dsimp only
      split
      · apply MakeAPICall_client
      · split
        · apply MakeAPICall_client
        · split <;> apply MakeAPICall_client
  · unfold Client.Delete
    dsimp only
    split
    · apply MakeAPICall_client
    · split <;> apply MakeAPICall_client

/-- C1 counterexample: a 201 response whose body is the JSON object
`\x7b"id":"x","name":0\x7d` — an object containing an `id` field — does not
make `Create` return `"x"` with no error: decoding fails on `name`, so
`Create` returns an error.  This refutes the claim as stated. -/
theorem c1_counterexample :
    ¬ ((cBadField.Create envOK Check.zero).id = "x"
        ∧ (cBadField.Create envOK Check.zero).error = none) := by
  intro h
  exact absurd h.2 (by decide)

/-- C1 (amended): if the transport returns status 201 and the body decodes
as a `Check` (in particular, a JSON object whose `id` field holds a
string and whose other fields are type-correct), `Create` returns the
decoded check's ID — the `id` field's value — and no error. -/
theorem c1_create_returns_decoded_id (c : Client) (env : World) (check : Check)
    (data : String) (chk : Check)
    (hm : marshalCheck check = .ok data)
    (he : (c.MakeAPICall env "POST" "checks" (some data)).error = none)
    (hs : (c.MakeAPICall env "POST" "checks" (some data)).status = 201)
    (hd : decodeCheck (c.MakeAPICall env "POST" "checks" (some data)).response
      = .ok chk) :
    (c.Create env check).id = chk.ID ∧ (c.Create env check).error = none :=
  Create_ok_of_decode c env check data chk hm he hs hd

/-- C1 witness: the spec's end-to-end shape — 201 with body
`\x7b"id":"abc"\x7d` — returns `"abc"` and no error. -/
theorem c1_witness :
    (cIdOnly.Create envOK Check.zero).id = "abc"
    ∧ (cIdOnly.Create envOK Check.zero).error = none :=
  c1_create_returns_decoded_id cIdOnly envOK Check.zero
    ((marshalCheck Check.zero).toOption.getD "")
    { Check.zero with ID := "abc" } (by rfl) (by rfl) (by rfl) (by rfl)

/-- C2 counterexample: `Create` on a check whose encoding fails issues no
HTTP request at all, refuting "every input issues exactly one request". -/
theorem c2_counterexample :
    ¬ ((cIdOnly.Create envOK badTimeCheck).sent.length = 1) := by
  decide

/-- C2 (amended): each operation issues at most one HTTP request; every
request it issues carries the operation's method and the URL obtained by
joining the configured base URL, the fixed "/v1/" prefix and the
operation's path (`checks` for Create, `checks/{id}` otherwise); and
exactly one request is issued whenever the steps before the transport
succeed — `http.NewRequest`, the request dump when tracing is enabled,
and, for Create/Update, the JSON encoding. -/
theorem c2_methods_paths (c : Client) (env : World) (check : Check) (ID : String) :
    (∀ r ∈ (c.Create env check).sent,
        r.method = "POST" ∧ r.url = c.URL ++ "/v1/" ++ "checks")
    ∧ (∀ r ∈ (c.Get env ID).sent,
        r.method = "GET" ∧ r.url = c.URL ++ "/v1/" ++ ("checks/" ++ ID))
    ∧ (∀ r ∈ (c.Update env ID check).sent,
        r.method = "PUT" ∧ r.url = c.URL ++ "/v1/" ++ ("checks/" ++ ID))
    ∧ (∀ r ∈ (c.Delete env ID).sent,
        r.method = "DELETE" ∧ r.url = c.URL ++ "/v1/" ++ ("checks/" ++ ID))
    ∧ (c.Create env check).sent.length ≤ 1
    ∧ (c.Get env ID).sent.length ≤ 1
    ∧ (c.Update env ID check).sent.length ≤ 1
    ∧ (c.Delete env ID).sent.length ≤ 1
    ∧ (env.newRequestErr = none →
        (c.Debug = true → ∃ s, env.dumpRequestOut = .ok s) →
        (c.Get env ID).sent.length = 1
        ∧ (c.Delete env ID).sent.length = 1
        ∧ ((marshalCheck check).toOption.isSome = true →
            (c.Create env check).sent.length = 1
            ∧ (c.Update env ID check).sent.length = 1)) := by
  refine ⟨?_, ?_, ?_, ?_, ?_, ?_, ?_, ?_, ?_⟩
  · intro r hr
    rcases Create_sent_cases c env check with ⟨e, _, hs⟩ | ⟨data, _, hs⟩
    · rw [hs] at hr
      cases hr
    · rw [hs] at hr
      have hb := mem_MakeAPICall_sent hr
      subst hb
      exact ⟨rfl, rfl⟩
  · intro r hr
    rw [Get_sent] at hr
    have hb := mem_MakeAPICall_sent hr
    subst hb
    exact ⟨rfl, rfl⟩
  · intro r hr
    rcases Update_sent_cases c env ID check with ⟨e, _, hs⟩ | ⟨data, _, hs⟩
    · rw [hs] at hr
      cases hr
    · rw [hs] at hr
      have hb := mem_MakeAPICall_sent hr
      subst hb
      exact ⟨rfl, rfl⟩
  · intro r hr
    rw [Delete_sent] at hr
    have hb := mem_MakeAPICall_sent hr
    subst hb
    exact ⟨rfl, rfl⟩
  · rcases Create_sent_cases c env check with ⟨e, _, hs⟩ | ⟨data, _, hs⟩ <;> rw [hs]
    · simp
    · apply MakeAPICall_sent_length
  · rw [Get_sent]
    apply MakeAPICall_sent_length
  · rcases Update_sent_cases c env ID check with ⟨e, _, hs⟩ | ⟨data, _, hs⟩ <;> rw [hs]
    · simp
    · apply MakeAPICall_sent_length
  · rw [Delete_sent]
    apply MakeAPICall_sent_length
  · intro hn hd
    refine ⟨?_, ?_, ?_⟩
    · rw [Get_sent, MakeAPICall_sent_one c env _ _ _ hn hd]
      rfl
    · rw [Delete_sent, MakeAPICall_sent_one c env _ _ _ hn hd]
      rfl
    · intro hsome
      constructor
      · rcases Create_sent_cases c env check with ⟨e, hm, _⟩ | ⟨data, _, hs⟩
        · rw [hm] at hsome
          simp [Except.toOption] at hsome
        · rw [hs, MakeAPICall_sent_one c env _ _ _ hn hd]
          rfl
      · rcases Update_sent_cases c env ID check with ⟨e, hm, _⟩ | ⟨data, _, hs⟩
        · rw [hm] at hsome
          simp [Except.toOption] at hsome
        · rw [hs, MakeAPICall_sent_one c env _ _ _ hn hd]
          rfl

/-- C2 witness: with a well-formed check and all preparatory steps
succeeding, `Create` and `Delete` each issue exactly one request. -/
theorem c2_witness :
    (cIdOnly.Create envOK Check.zero).sent.length = 1
    ∧ (cIdOnly.Delete envOK "abc").sent.length = 1 := by
  have h := (c2_methods_paths cIdOnly envOK Check.zero "abc").2.2.2.2.2.2.2.2
    (by rfl) (fun _ => ⟨"REQDUMP", rfl⟩)
  exact ⟨(h.2.2 (by rfl)).1, h.2.1⟩

/-- C3 counterexample: with tracing enabled, a failing
`httputil.DumpRequestOut` changes the result of `MakeAPICall` — the call
aborts with a dump error instead of reaching the transport — refuting
"dump failures never change the (status, body, error) result". -/
theorem c3_counterexample :
    ¬ (callResult (cTraced.MakeAPICall envDumpFail "GET" "checks/abc" none)
        = callResult (cTraced.MakeAPICall envOK "GET" "checks/abc" none)) := by
  decide

/-- C3 (amended): the response-dump outcome and the results of the debug
writes never change the (status, body, error) result of `MakeAPICall`
(those are the silently suppressed failures); but when tracing is enabled
a failure to produce the request dump aborts the call with
`error dumping HTTP request: …` — status 0 and empty body — before the
transport is invoked. -/
theorem c3_dump_effects (c : Client) (env : World) (m u : String)
    (d : Option String) (x : Except String String) (w1 w2 : Option String)
    (e : String) :
    callResult (c.MakeAPICall
        { env with dumpResponse := x, reqWriteErr := w1, respWriteErr := w2 } m u d)
      = callResult (c.MakeAPICall env m u d)
    ∧ (c.Debug = true → env.newRequestErr = none →
        env.dumpRequestOut = .error e →
        c.MakeAPICall env m u d = ⟨c, 0, "", some (.dumpErr e), [], []⟩) := by
  constructor
  · obtain ⟨n, dr, dresp, r1, r2⟩ := env
    unfold Client.MakeAPICall
    dsimp only
    cases n with
    | some e0 => rfl
    | none =>
      dsimp only
      by_cases hb : c.Debug
      · rw [if_pos hb, if_pos hb]
        cases dr with
        | error e0 => rfl
        | ok s => apply afterDump_result
      · rw [if_neg hb, if_neg hb]
        apply afterDump_result
  · intro hb hn hdump
    unfold Client.MakeAPICall
    rw [hn]
    dsimp only
    rw [if_pos hb, hdump]

/-- C3 witness: response-dump/write outcomes leave the traced call's result
unchanged, and the failing request dump yields exactly the dump error. -/
theorem c3_witness :
    callResult (cTraced.MakeAPICall
        { envOK with dumpResponse := (Except.error "x"), reqWriteErr := some "w", respWriteErr := some "w" } "GET" "checks/abc" none)
      = callResult (cTraced.MakeAPICall envOK "GET" "checks/abc" none)
    ∧ cTraced.MakeAPICall envDumpFail "GET" "checks/abc" none
      = ⟨cTraced, 0, "", some (.dumpErr "boom"), [], []⟩ := by
  refine ⟨?_, ?_⟩
  · exact (c3_dump_effects cTraced envOK "GET" "checks/abc" none (Except.error "x")
      (some "w") (some "w") "boom").1
  · exact (c3_dump_effects cTraced envDumpFail "GET" "checks/abc" none (.ok "")
      none none "boom").2 (by rfl) (by rfl) (by rfl)

set_option maxRecDepth 10000 in
/-- C8 counterexample: the wire JSON of a `Check` with an empty ID does
contain an `id` member (with the empty string), and it contains the
`created_at` zero timestamp — the server-controlled fields are populated in
request bodies, refuting the claim. -/
theorem c8_counterexample :
    containsSub ((marshalCheck Check.zero).toOption.getD "") "\"id\":\"\"" = true
    ∧ containsSub ((marshalCheck Check.zero).toOption.getD "")
        "\"created_at\":\"0001-01-01T00:00:00Z\"" = true := by
  exact ⟨by decide, by decide⟩

/-- C8 (amended): the server-controlled fields are never omitted from the
wire JSON that `Create` and `Update` send: every successfully marshalled
check starts with `\x7b"id":` followed by its (possibly empty) ID value,
and contains the `created_at` and `updated_at` members with their rendered
timestamps, because `json:"id"` has no `omitempty` and `omitempty` has no
effect on the `time.Time` struct fields. -/
theorem c8_id_always_serialized (check : Check) (s : String)
    (h : marshalCheck check = .ok s) :
    ∃ ca ua pre post,
      marshalTime check.CreatedAt = .ok ca
      ∧ marshalTime check.UpdatedAt = .ok ua
      ∧ s = "\x7b\"id\":" ++ jsonQuote check.ID ++ "," ++ pre
          ++ ",\"created_at\":" ++ ca ++ ",\"updated_at\":" ++ ua ++ post := by
  unfold marshalCheck at h
  rcases hca : marshalTime check.CreatedAt with e | ca <;> rw [hca] at h
  · cases h
  · rcases hua : marshalTime check.UpdatedAt with e | ua <;> rw [hua] at h
    · cases h
    · cases h
      refine ⟨ca, ua, checkFieldsPre check, checkFieldsPost check, rfl, rfl, ?_⟩
      unfold checkFieldsTail
      simp only [strAppend_assoc]

/-- C8 witness: the zero check marshals; its wire JSON carries the (empty)
`id` member first and both zero timestamps. -/
theorem c8_witness :
    ∃ ca ua pre post,
      marshalTime Check.zero.CreatedAt = .ok ca
      ∧ marshalTime Check.zero.UpdatedAt = .ok ua
      ∧ (marshalCheck Check.zero).toOption.getD ""
        = "\x7b\"id\":" ++ jsonQuote Check.zero.ID ++ "," ++ pre
          ++ ",\"created_at\":" ++ ca ++ ",\"updated_at\":" ++ ua ++ post :=
  c8_id_always_serialized Check.zero ((marshalCheck Check.zero).toOption.getD "")
    (by rfl)

/-- C10: if the transport returns 201 with a body that decodes as a JSON
object none of whose members sets a non-empty `id` (no `id` key, or an
empty-string one), `Create` returns the empty string with no error: a
missing server-assigned ID is not reported as an error. -/
theorem c10_missing_id_not_error (c : Client) (env : World) (check : Check)
    (data : String) (kvs : List (String × Json)) (chk : Check)
    (hm : marshalCheck check = .ok data)
    (he : (c.MakeAPICall env "POST" "checks" (some data)).error = none)
    (hs : (c.MakeAPICall env "POST" "checks" (some data)).status = 201)
    (hp : parseTop (c.MakeAPICall env "POST" "checks" (some data)).response
      = .ok (.obj kvs))
    (hk : kvs.all idExempt = true)
    (hd : decodeCheck (c.MakeAPICall env "POST" "checks" (some data)).response
      = .ok chk) :
    (c.Create env check).id = "" ∧ (c.Create env check).error = none := by
  have hid : chk.ID = "" :=
    decFields_check_ID kvs Check.zero chk
      (decodeCheck_obj _ kvs chk hp hd) hk rfl
  have h := Create_ok_of_decode c env check data chk hm he hs hd
  exact ⟨h.1.trans hid, h.2⟩

/-- C10 witness: a 201 reply whose body is the empty JSON object makes
`Create` return `("", no error)`. -/
theorem c10_witness :
    (cEmptyObj.Create envOK Check.zero).id = ""
    ∧ (cEmptyObj.Create envOK Check.zero).error = none :=
  c10_missing_id_not_error cEmptyObj envOK Check.zero
    ((marshalCheck Check.zero).toOption.getD "") [] Check.zero
    (by rfl) (by rfl) (by rfl) (by rfl) (by rfl) (by rfl)

end Checkly
